import Mathlib

/-!
Shallow embedding of the synchronization core of `gphotos_uploader.py`
(Folders-To-Google-Photos-Albums).  Pure helpers (date reconciliation,
folder-name parsing, path suffix handling) are translated directly; the
stateful upload pipeline is modelled as explicit state passing over a
record that carries the in-memory sync state, the in-memory failure
registry, their on-disk snapshots, scripted remote responses, and a trace
of observable effects (remote calls, sleeps, exiftool invocations,
filesystem timestamp writes, state-file writes).
-/

namespace GPhotosSync

/-! ## Datetimes as Python's `datetime` handles them -/

structure PyDateTime where
  year : Nat
  month : Nat
  day : Nat
  hour : Nat
  minute : Nat
  second : Nat
deriving DecidableEq, Repr

def isLeap (y : Nat) : Bool := y % 4 == 0 && (y % 100 != 0 || y % 400 == 0)

def daysInMonth (y m : Nat) : Nat :=
  if m = 2 then (if isLeap y then 29 else 28)
  else if m = 4 ∨ m = 6 ∨ m = 9 ∨ m = 11 then 30
  else 31

def validYMD (y m d : Nat) : Bool :=
  decide (1 ≤ y) && decide (y ≤ 9999) && decide (1 ≤ m) && decide (m ≤ 12) &&
  decide (1 ≤ d) && decide (d ≤ daysInMonth y m)

def PyDateTime.valid (dt : PyDateTime) : Bool := validYMD dt.year dt.month dt.day

/-- `datetime.replace(year=y, month=m, day=d)`: `none` models the
`ValueError` raised on an invalid resulting calendar date. -/
def replaceYMD (dt : PyDateTime) (y m d : Nat) : Option PyDateTime :=
  if validYMD y m d then some { dt with year := y, month := m, day := d } else none

/-- `if y is not None and y != original_dt.year: new_dt = new_dt.replace(year=y)` -/
def stepY (orig : PyDateTime) (y : Option Nat) : Option PyDateTime :=
  match y with
  | some yv => if yv ≠ orig.year then replaceYMD orig yv orig.month orig.day else some orig
  | none => some orig

def stepM (orig s1 : PyDateTime) (m : Option Nat) : Option PyDateTime :=
  match m with
  | some mv => if mv ≠ orig.month then replaceYMD s1 s1.year mv s1.day else some s1
  | none => some s1

def stepD (orig s2 : PyDateTime) (d : Option Nat) : Option PyDateTime :=
  match d with
  | some dv => if dv ≠ orig.day then replaceYMD s2 s2.year s2.month dv else some s2
  | none => some s2

/-- The shared try-body of `build_datetime_from_folder_info` and of
`update_filesystem_date_if_mismatch`: sequential `replace` calls, each
component compared against the original value; `none` models a
`ValueError` escaping the chain. -/
def replaceChain (orig : PyDateTime) (y m d : Option Nat) : Option PyDateTime :=
  match stepY orig y with
  | none => none
  | some s1 =>
    match stepM orig s1 m with
    | none => none
    | some s2 => stepD orig s2 d

/-- `build_datetime_from_folder_info`.  The `except ValueError` fallback is
`original_dt.replace(year=y or orig, month=m or orig, day=1)`, which itself
raises (`none`) when that date is still invalid. -/
def buildDatetimeFromFolderInfo (orig : PyDateTime)
    (fi : Option Nat × Option Nat × Option Nat) : Option PyDateTime :=
  match replaceChain orig fi.1 fi.2.1 fi.2.2 with
  | some r => some r
  | none => replaceYMD orig (fi.1.getD orig.year) (fi.2.1.getD orig.month) 1

/-! ## `extract_date_from_folder`: the regex `(\d{4})(?:[-_]?(\d{2}))?(?:[-_]?(\d{2}))?`
applied with `re.search` (leftmost match, greedy optional groups). -/

def digitVal (c : Char) : Nat := c.toNat - 48

def twoDigits : List Char → Option (Nat × List Char)
  | a :: b :: rest =>
      if a.isDigit && b.isDigit then some (digitVal a * 10 + digitVal b, rest) else none
  | _ => none

def fourDigits : List Char → Option (Nat × List Char)
  | a :: b :: c :: e :: rest =>
      if a.isDigit && b.isDigit && c.isDigit && e.isDigit then
        some (((digitVal a * 10 + digitVal b) * 10 + digitVal c) * 10 + digitVal e, rest)
      else none
  | _ => none

/-- `(?:[-_]?(\d{2}))`: the optional separator is greedy and backtracks. -/
def optSepTwoDigits (cs : List Char) : Option (Nat × List Char) :=
  match cs with
  | c :: rest =>
      if c = '-' ∨ c = '_' then
        match twoDigits rest with
        | some r => some r
        | none => twoDigits cs
      else twoDigits cs
  | [] => none

/-- Match the whole pattern anchored at the current position.  If the month
group fails, the (identical) day group fails at the same position too. -/
def matchDateAt (cs : List Char) : Option (Nat × Option Nat × Option Nat) :=
  match fourDigits cs with
  | none => none
  | some (y, rest) =>
    match optSepTwoDigits rest with
    | none => some (y, none, none)
    | some (mo, rest2) =>
      match optSepTwoDigits rest2 with
      | none => some (y, some mo, none)
      | some (dy, _) => some (y, some mo, some dy)

def searchDate : List Char → Option (Nat × Option Nat × Option Nat)
  | [] => none
  | c :: rest =>
    match matchDateAt (c :: rest) with
    | some r => some r
    | none => searchDate rest

def extractDateFromFolder (folderName : String) : Option (Nat × Option Nat × Option Nat) :=
  searchDate folderName.data

/-! ## String helpers: `pathlib` suffix, `.lower()`, `startswith`, basename -/

def strLower (s : String) : String := String.mk (s.data.map Char.toLower)

/-- Index of the last `'.'` in the list, if any. -/
def rfindDot (cs : List Char) : Option Nat :=
  (List.range cs.length).foldl
    (fun acc i => if cs.getD i ' ' = '.' then some i else acc) none

/-- `pathlib.PurePath.suffix` of a file *name*: the part from the last dot,
provided that dot is neither the first nor the last character. -/
def suffixOf (name : String) : String :=
  match rfindDot name.data with
  | some i => if 0 < i ∧ i < name.data.length - 1 then String.mk (name.data.drop i) else ""
  | none => ""

/-- Final path component (`Path(p).name` for the slash-free tails we build). -/
def baseName (p : String) : String :=
  String.mk ((p.data.reverse.takeWhile (fun c => c ≠ '/')).reverse)

def pyStartsWith (s pre : String) : Bool := pre.data.isPrefixOf s.data

def SUPPORTED_EXIF_EXT : List String :=
  [".jpg", ".jpeg", ".heic", ".heif", ".cr2", ".tif", ".tiff", ".mov", ".mp4", ".nef"]

/-- A local file as the pipeline observes it: its name and directory, its
size, its filesystem mtime, the capture timestamp the external metadata
reader would report (`none` = unreadable, falling back to mtime), whether a
metadata write would succeed, and whether the file exists and is readable
(collapsing `force_file_download`'s two guards). -/
structure FileInfo where
  name : String
  dir : String
  size : Nat
  mtime : PyDateTime
  exifDt : Option PyDateTime
  exifWriteOk : Bool
  readable : Bool
deriving DecidableEq, Repr

def FileInfo.path (f : FileInfo) : String := f.dir ++ "/" ++ f.name

/-! ## Data model: SyncState, FailureRegistry -/

structure AlbumRecord where
  album_id : String
  path : String
  files : List String
deriving DecidableEq, Repr

/-- `upload_state.json`: folder name → AlbumRecord (insertion-ordered dict). -/
def SyncState := List (String × AlbumRecord)
deriving DecidableEq, Repr

structure FailEntry where
  path : String
  files : List String
deriving DecidableEq, Repr

inductive FailKind where
  | UploadError
  | AddToAlbumError
  | TooLarge
  | ExifErrors
  | UnsupportedFormat
deriving DecidableEq, Repr

/-- `failed_uploads.json`: the five pre-initialised failure categories. -/
structure Failures where
  uploadError : List (String × FailEntry)
  addToAlbumError : List (String × FailEntry)
  tooLarge : List (String × FailEntry)
  exifErrors : List (String × FailEntry)
  unsupportedFormat : List (String × FailEntry)
deriving DecidableEq, Repr

def emptyFails : Failures := ⟨[], [], [], [], []⟩

def Failures.get (f : Failures) : FailKind → List (String × FailEntry)
  | .UploadError => f.uploadError
  | .AddToAlbumError => f.addToAlbumError
  | .TooLarge => f.tooLarge
  | .ExifErrors => f.exifErrors
  | .UnsupportedFormat => f.unsupportedFormat

def Failures.set (f : Failures) : FailKind → List (String × FailEntry) → Failures
  | .UploadError, l => { f with uploadError := l }
  | .AddToAlbumError, l => { f with addToAlbumError := l }
  | .TooLarge, l => { f with tooLarge := l }
  | .ExifErrors, l => { f with exifErrors := l }
  | .UnsupportedFormat, l => { f with unsupportedFormat := l }

/-! ### Association-list dictionary operations (string keys, unique) -/

def lookupA {α : Type} : List (String × α) → String → Option α
  | [], _ => none
  | (k, v) :: t, key => if k = key then some v else lookupA t key

def setA {α : Type} : List (String × α) → String → α → List (String × α)
  | [], key, v => [(key, v)]
  | (k, w) :: t, key, v => if k = key then (key, v) :: t else (k, w) :: setA t key v

def delA {α : Type} : List (String × α) → String → List (String × α)
  | [], _ => []
  | (k, w) :: t, key => if k = key then t else (k, w) :: delA t key

def lookupSt (st : SyncState) (k : String) : Option AlbumRecord := lookupA st k

def setSt (st : SyncState) (k : String) (v : AlbumRecord) : SyncState := setA st k v

def delSt (st : SyncState) (k : String) : SyncState := delA st k

def filesOfState (st : SyncState) (folder : String) : List String :=
  match lookupSt st folder with
  | some ar => ar.files
  | none => []

def filesOfFail (f : Failures) (k : FailKind) (folder : String) : List String :=
  match lookupA (f.get k) folder with
  | some e => e.files
  | none => []

/-! ## Observable effects and scripted remote responses -/

/-- Observable side effects: remote HTTP calls, sleeps, exiftool
invocations, filesystem timestamp writes, and state-file writes. -/
inductive Eff where
  | createAlbum (title : String)
  | listAlbums
  | upload (file : String)
  | commit (albumId : String)
  | sleep (secs : Nat)
  | exiftool (mode : String)
  | utime (path : String)
  | saveState
  | saveFailed
deriving DecidableEq, Repr

/-- Scripted response to one `mediaItems:batchCreate` call. -/
inductive CResp where
  | ok
  | itemFail
  | r429
  | r404missing
  | err (code : Nat)
deriving DecidableEq, Repr

/-- Run state: in-memory SyncState and FailureRegistry, their durable
snapshots, the scripted remote responses still to be consumed, and the
effect trace so far. -/
structure RS where
  st : SyncState
  fails : Failures
  diskSt : SyncState
  diskFails : Failures
  creates : List (Option String)
  uploads : List (Option String)
  commits : List CResp
  trace : List Eff
deriving DecidableEq, Repr

def pushEff (rs : RS) (e : Eff) : RS := { rs with trace := rs.trace ++ [e] }

/-- `save_json(STATE_FILE, state)` -/
def doSaveState (rs : RS) : RS :=
  { rs with diskSt := rs.st, trace := rs.trace ++ [Eff.saveState] }

/-- `save_json(FAILED_FILE, failures)` -/
def doSaveFailed (rs : RS) : RS :=
  { rs with diskFails := rs.fails, trace := rs.trace ++ [Eff.saveFailed] }

def popCreate (rs : RS) : Option String × RS :=
  match rs.creates with
  | [] => (none, rs)
  | r :: rest => (r, { rs with creates := rest })

def popUpload (rs : RS) : Option String × RS :=
  match rs.uploads with
  | [] => (none, rs)
  | r :: rest => (r, { rs with uploads := rest })

def popCommit (rs : RS) : CResp × RS :=
  match rs.commits with
  | [] => (CResp.err 0, rs)
  | r :: rest => (r, { rs with commits := rest })

/-! ## tenacity: `@retry(wait=wait_fixed(5), stop=stop_after_attempt(5))` -/

def tenacityGo {α : Type} : Nat → (RS → RS × Except Unit α) → RS → RS × Except Unit α
  | 0, _, rs => (rs, Except.error ())
  | Nat.succ n, body, rs =>
    match body rs with
    | (rs1, Except.ok a) => (rs1, Except.ok a)
    | (rs1, Except.error _) =>
      match n with
      | 0 => (rs1, Except.error ())
      | Nat.succ _ => tenacityGo n body (pushEff rs1 (Eff.sleep 5))

def tenacity5 {α : Type} (body : RS → RS × Except Unit α) (rs : RS) : RS × Except Unit α :=
  tenacityGo 5 body rs

/-! ## Failure handling: `add_failure` (write-through) -/

def addFailureData (fails : Failures) (k : FailKind) (folder file path : String) : Failures :=
  let lst := fails.get k
  let lst1 :=
    match lookupA lst folder with
    | none => lst ++ [(folder, ⟨path, [file]⟩)]
    | some e => if file ∈ e.files then lst else setA lst folder ⟨e.path, e.files ++ [file]⟩
  fails.set k lst1

def addFailure (rs : RS) (k : FailKind) (folder file path : String) : RS :=
  doSaveFailed { rs with fails := addFailureData rs.fails k folder file path }

/-- `failures[etype][folder]["files"].remove(name)` followed by deletion of
the folder entry once its file list is empty.  `.remove` deletes the first
occurrence (`List.erase`); the entry is present in every reachable call. -/
def removeFailureData (fails : Failures) (k : FailKind) (folder file : String) : Failures :=
  let lst := fails.get k
  match lookupA lst folder with
  | none => fails
  | some e =>
    let files1 := e.files.erase file
    if files1 = [] then fails.set k (delA lst folder)
    else fails.set k (setA lst folder ⟨e.path, files1⟩)

/-! ## API wrappers -/

/-- `create_album` body: POST /albums with the title truncated to 100
characters; the scripted response yields the new album id or an error. -/
def createAlbumBody (title : String) (rs : RS) : RS × Except Unit String :=
  let rs := pushEff rs (Eff.createAlbum (title.take 100))
  match popCreate rs with
  | (some aid, rs) => (rs, Except.ok aid)
  | (none, rs) => (rs, Except.error ())

def createAlbum (title : String) (rs : RS) : RS × Except Unit String :=
  tenacity5 (createAlbumBody title) rs

/-- `upload_file` body: the 10 GiB ceiling is checked (and a `TooLarge`
failure recorded) before the POST; note the check sits *inside* the
tenacity-wrapped function, so the raise it triggers is retried. -/
def maxUploadSize : Nat := 10 * 1024 * 1024 * 1024

def uploadFileBody (f : FileInfo) (rs : RS) : RS × Except Unit String :=
  if f.size > maxUploadSize then
    (addFailure rs FailKind.TooLarge (baseName f.dir) f.name f.dir, Except.error ())
  else
    let rs := pushEff rs (Eff.upload f.name)
    match popUpload rs with
    | (some tok, rs) => (rs, Except.ok tok)
    | (none, rs) => (rs, Except.error ())

def uploadFile (f : FileInfo) (rs : RS) : RS × Except Unit String :=
  tenacity5 (uploadFileBody f) rs

/-- `add_to_album` body (one tenacity attempt).  A `429` sleeps 65s and
raises into the retry wrapper; a `404` whose body flags a missing album
purges the stale SyncState record, creates a replacement album, records it
(path `"."` = `Path(description).parent` for a bare file name, files reset
to `[]`), and re-issues the commit against the new id.  Any other non-200,
or a 200 whose item status is non-zero, raises. -/
def addToAlbumBody (albumId _description folderName : String) (rs : RS) :
    RS × Except Unit Unit :=
  let rs := pushEff rs (Eff.commit albumId)
  match popCommit rs with
  | (CResp.r429, rs) => (pushEff rs (Eff.sleep 65), Except.error ())
  | (CResp.r404missing, rs) =>
    let rs :=
      if (lookupSt rs.st folderName).isSome then
        doSaveState { rs with st := delSt rs.st folderName }
      else rs
    match createAlbum folderName rs with
    | (rs, Except.error _) => (rs, Except.error ())
    | (rs, Except.ok newId) =>
      let rs := doSaveState
        { rs with st := setSt rs.st folderName ⟨newId, ".", []⟩ }
      let rs := pushEff rs (Eff.commit newId)
      match popCommit rs with
      | (CResp.ok, rs) => (rs, Except.ok ())
      | (_, rs) => (rs, Except.error ())
  | (CResp.ok, rs) => (rs, Except.ok ())
  | (CResp.itemFail, rs) => (rs, Except.error ())
  | (CResp.err _, rs) => (rs, Except.error ())

def addToAlbum (albumId description folderName : String) (rs : RS) :
    RS × Except Unit Unit :=
  tenacity5 (addToAlbumBody albumId description folderName) rs

/-- `search_album_by_name`, up to the listing pages: page scan updating the
title→id cache entry by entry (skipping falsy titles/ids), returning as
soon as the searched title is seen. -/
def scanPage (title : String) :
    List (String × String) → List (String × String) →
    Option String × List (String × String)
  | [], cache => (none, cache)
  | (at_, aid) :: rest, cache =>
    if at_ ≠ "" ∧ aid ≠ "" then
      let cache := setA cache at_ aid
      if at_ = title then (some aid, cache) else scanPage title rest cache
    else scanPage title rest cache

def searchPages (title : String) :
    List (List (String × String)) → List (String × String) →
    Option String × List (String × String)
  | [], cache => (none, cache)
  | pg :: rest, cache =>
    match scanPage title pg cache with
    | (some aid, cache) => (some aid, cache)
    | (none, cache) => searchPages title rest cache

/-- `search_album_by_name(title)`: (1) `upload_state.json` entry, (2) the
in-process `album_cache`, (3) the paginated remote listing, populating the
cache as a side effect.  `pages` scripts the remote listing. -/
def searchAlbumByName (st : SyncState) (cache : List (String × String))
    (pages : List (List (String × String))) (title : String) :
    Option String × List (String × String) :=
  match lookupSt st title with
  | some ar =>
    if ar.album_id ≠ "" then (some ar.album_id, cache)
    else
      match lookupA cache title with
      | some aid => (some aid, cache)
      | none => searchPages title pages cache
  | none =>
    match lookupA cache title with
    | some aid => (some aid, cache)
    | none => searchPages title pages cache

/-! ## Date-fix side effects -/

/-- `force_file_download`: runs exiftool over the file (unconditionally,
dry-run included) when the file exists and is readable. -/
def forceFileDownload (f : FileInfo) (rs : RS) : RS × Bool :=
  if f.readable then (pushEff rs (Eff.exiftool "force"), true) else (rs, false)

/-- `update_exif_date_if_mismatch`: parse the folder name (silently a no-op
without a parseable date), read the capture time via exiftool (falling back
to the filesystem mtime), and when the corrected timestamp differs either
log it (dry-run) or overwrite the tags via exiftool, recording `ExifErrors`
on a write failure.  The second component is `false` when
`build_datetime_from_folder_info` raises out of its own fallback
(a `ValueError` that would crash the run). -/
def updateExifDateIfMismatch (dryRun : Bool) (f : FileInfo) (folderName : String)
    (rs : RS) : RS × Bool :=
  match extractDateFromFolder folderName with
  | none => (rs, true)
  | some fi =>
    let rs := pushEff rs (Eff.exiftool "read")
    let exifDt := f.exifDt.getD f.mtime
    match buildDatetimeFromFolderInfo exifDt (some fi.1, fi.2.1, fi.2.2) with
    | none => (rs, false)
    | some newDt =>
      if newDt ≠ exifDt then
        if dryRun then (rs, true)
        else
          let rs := pushEff rs (Eff.exiftool "write")
          if f.exifWriteOk then (rs, true)
          else (addFailure rs FailKind.ExifErrors folderName f.name f.dir, true)
      else (rs, true)

/-- `update_filesystem_date_if_mismatch`: same component-wise substitution
against the current mtime but with *no* `try/except` — an invalid
intermediate date raises out of the function (second component `false`).
The `os.utime` write is guarded by dry-run. -/
def updateFilesystemDateIfMismatch (dryRun : Bool) (f : FileInfo) (folderName : String)
    (rs : RS) : RS × Bool :=
  match extractDateFromFolder folderName with
  | none => (rs, true)
  | some fi =>
    match replaceChain f.mtime (some fi.1) fi.2.1 fi.2.2 with
    | none => (rs, false)
    | some newDt =>
      if newDt ≠ f.mtime then
        if dryRun then (rs, true) else (pushEff rs (Eff.utime f.path), true)
      else (rs, true)

/-! ## `process_file`: the per-file pipeline -/

/-- Result of `process_file`: Python's `None` (`ret none`), `True`/`False`
(`ret (some b)`), or an exception escaping the function (which kills the
driver loop). -/
inductive PFRes where
  | crashed
  | ret (b : Option Bool)
deriving DecidableEq, Repr

/-- The final `try/except` of `process_file`: commit the upload token to
the album; an exception classifies the file as `AddToAlbumError`. -/
def commitPhase (albumId tok folderName fname fpath : String) (rs : RS) : RS × PFRes :=
  match addToAlbum albumId tok folderName rs with
  | (rs, Except.ok _) => (rs, PFRes.ret (some true))
  | (rs, Except.error _) =>
    (addFailure rs FailKind.AddToAlbumError folderName fname fpath,
     PFRes.ret (some false))

/-- The two upload/commit `try/except` blocks of `process_file`: transfer
(classifying `UploadError` on failure and returning `False`), then — on
success — append the filename to the folder's `uploaded_files` and persist
SyncState *immediately, before the commit*, then the commit phase. -/
def uploadAndCommit (f : FileInfo) (folderName albumId folderPath : String)
    (rs : RS) : RS × PFRes :=
  match uploadFile f rs with
  | (rs, Except.error _) =>
    (addFailure rs FailKind.UploadError folderName f.name folderPath,
     PFRes.ret (some false))
  | (rs, Except.ok tok) =>
    match lookupSt rs.st folderName with
    | none => (rs, PFRes.crashed)    -- KeyError
    | some ar =>
      commitPhase albumId tok folderName f.name folderPath
        (doSaveState
          { rs with st := setSt rs.st folderName ⟨ar.album_id, ar.path, ar.files ++ [f.name]⟩ })

/-- The `UPDATE_FROM_FOLDER_DATE` block of `process_file`: force-download,
metadata edit for supported formats, filesystem-timestamp fix for all
files.  The boolean is `false` when a `ValueError` escapes (killing the
driver). -/
def dateFixPhase (dryRun updateFromFolder : Bool) (f : FileInfo) (folderName : String)
    (rs : RS) : RS × Bool :=
  if updateFromFolder then
    match forceFileDownload f rs with
    | (rs, _) =>
      match (if strLower (suffixOf f.name) ∈ SUPPORTED_EXIF_EXT then
               updateExifDateIfMismatch dryRun f folderName rs
             else (rs, true)) with
      | (rs, false) => (rs, false)
      | (rs, true) => updateFilesystemDateIfMismatch dryRun f folderName rs
  else (rs, true)

def processFile (dryRun updateFromFolder : Bool) (f : FileInfo)
    (folderName albumId folderPath : String) (rs : RS) : RS × PFRes :=
  -- skip files outside the target directory
  if ¬ pyStartsWith f.path folderPath then (rs, PFRes.ret none)
  else
  -- admission check against the folder's uploaded_files
  if f.name ∈ filesOfState rs.st folderName then (rs, PFRes.ret none)
  else
    match dateFixPhase dryRun updateFromFolder f folderName rs with
    | (rs, false) => (rs, PFRes.crashed)
    | (rs, true) =>
      if dryRun then (rs, PFRes.ret none)
      else uploadAndCommit f folderName albumId folderPath rs

/-! ## Main driver loop (per folder) -/

/-- The per-file branch of the main loop: files whose lowercased suffix is
not in the supported set are merely logged and skipped; already-uploaded
files are skipped; the rest go through `process_file`.  The boolean flags
an exception escaping `process_file` (which would kill the run). -/
def dispatchFile (dryRun updateFromFolder : Bool) (folderName albumId folderPath : String)
    (stFiles : List String) (f : FileInfo) (rs : RS) : RS × Bool :=
  if strLower (suffixOf f.name) ∈ SUPPORTED_EXIF_EXT then
    if f.name ∈ stFiles then (rs, false)
    else
      match processFile dryRun updateFromFolder f folderName albumId folderPath rs with
      | (rs, PFRes.crashed) => (rs, true)
      | (rs, _) => (rs, false)
  else (rs, false)

def fileLoop (dryRun updateFromFolder : Bool) (folderName albumId folderPath : String)
    (stFiles : List String) : List FileInfo → RS → RS × Bool
  | [], rs => (rs, false)
  | f :: rest, rs =>
    match dispatchFile dryRun updateFromFolder folderName albumId folderPath stFiles f rs with
    | (rs, true) => (rs, true)
    | (rs, false) => fileLoop dryRun updateFromFolder folderName albumId folderPath stFiles rest rs

/-- One iteration of the main loop for one folder: album resolution
(SyncState entry, else remote creation — note the dry-run branch only logs
and then falls through to the real creation), the `files` snapshot, then
the per-file loop.  On a folder in SyncState the recorded path replaces the
folder's own path. -/
def folderStep (dryRun updateFromFolder : Bool) (folderName folderPathArg : String)
    (files : List FileInfo) (rs : RS) : RS × Bool :=
  match lookupSt rs.st folderName with
  | none =>
    match createAlbum folderName rs with
    | (rs, Except.error _) => (rs, false)
    | (rs, Except.ok aid) =>
      let rs := doSaveState
        { rs with st := setSt rs.st folderName ⟨aid, folderPathArg, []⟩ }
      fileLoop dryRun updateFromFolder folderName aid folderPathArg
        (filesOfState rs.st folderName) files rs
  | some ar =>
    fileLoop dryRun updateFromFolder folderName ar.album_id ar.path
      (filesOfState rs.st folderName) files rs

/-! ## Retry-failed mode (inner per-file loop) -/

/-- Environment of a file on disk, looked up by name when the retry loop
rebuilds `folder_path / file_name`. -/
structure FileEnv where
  size : Nat
  mtime : PyDateTime
  exifDt : Option PyDateTime
  exifWriteOk : Bool
  readable : Bool
deriving DecidableEq, Repr

def mkFile (folderPath name : String) (e : FileEnv) : FileInfo :=
  ⟨name, folderPath, e.size, e.mtime, e.exifDt, e.exifWriteOk, e.readable⟩

/-- One file of the retry-failed inner loop: a file whose lowercased suffix
is not in the supported set is removed from the registry entry (in memory
only — no save) and skipped; otherwise `process_file` runs and a truthy
result removes the file from the entry (again without saving). -/
def retryFileStep (etype : FailKind) (folderName albumId folderPath : String)
    (env : String → FileEnv) (dryRun updateFromFolder : Bool)
    (fileName : String) (rs : RS) : RS × Bool :=
  let f := mkFile folderPath fileName (env fileName)
  if strLower (suffixOf fileName) ∈ SUPPORTED_EXIF_EXT then
    match processFile dryRun updateFromFolder f folderName albumId folderPath rs with
    | (rs, PFRes.crashed) => (rs, true)
    | (rs, PFRes.ret (some true)) =>
      ({ rs with fails := removeFailureData rs.fails etype folderName fileName }, false)
    | (rs, _) => (rs, false)
  else
    ({ rs with fails := removeFailureData rs.fails etype folderName fileName }, false)

/-- The retry-failed inner loop over the snapshot (`file_list[:]`) of one
folder's parked files.  No registry save happens here: the single
`save_json(FAILED_FILE, failures)` of retry mode runs only after every
error type and folder has been processed. -/
def retryFolder (etype : FailKind) (folderName albumId folderPath : String)
    (env : String → FileEnv) (dryRun updateFromFolder : Bool) :
    List String → RS → RS × Bool
  | [], rs => (rs, false)
  | n :: rest, rs =>
    match retryFileStep etype folderName albumId folderPath env dryRun updateFromFolder n rs with
    | (rs, true) => (rs, true)
    | (rs, false) =>
      retryFolder etype folderName albumId folderPath env dryRun updateFromFolder rest rs

/-! ## Predicates used by the invariant theorems -/

/-- Two run states agree on all durable/in-memory stores (they may differ
in trace and consumed oracle). -/
def Quiet (a b : RS) : Prop :=
  b.st = a.st ∧ b.fails = a.fails ∧ b.diskSt = a.diskSt ∧ b.diskFails = a.diskFails

/-- No scripted commit response remaining is a success or a
missing-album 404. -/
abbrev NoCommitOk (rs : RS) : Prop :=
  ∀ c ∈ rs.commits, c ≠ CResp.ok ∧ c ≠ CResp.r404missing

/-- No scripted commit response remaining is a missing-album 404. -/
abbrev No404 (rs : RS) : Prop := CResp.r404missing ∉ rs.commits

def isCreateEff : Eff → Bool
  | Eff.createAlbum _ => true
  | _ => false

/-- Number of remote album-create calls in a trace. -/
def createCt (t : List Eff) : Nat := t.countP isCreateEff

/-! ## Concrete fixtures used by the counterexample and witness theorems -/

def recF : AlbumRecord := ⟨"A1", "/root/F", []⟩

def stF : SyncState := [("F", recF)]

def fileA : FileInfo := ⟨"a.jpg", "/root/F", 100, ⟨2020, 1, 15, 10, 0, 0⟩,
  some ⟨2020, 1, 15, 10, 0, 0⟩, true, true⟩

def fileBig : FileInfo := ⟨"big.mp4", "/root/F", 10737418241, ⟨2020, 1, 15, 10, 0, 0⟩,
  none, true, true⟩

def filePng : FileInfo := ⟨"scan.png", "/root/F", 100, ⟨2020, 1, 15, 10, 0, 0⟩,
  none, true, true⟩

def fileDry : FileInfo := ⟨"a.jpg", "/root/2021-07", 100, ⟨2020, 1, 15, 10, 0, 0⟩,
  some ⟨2020, 1, 15, 10, 0, 0⟩, true, true⟩

def envStd : String → FileEnv := fun _ => ⟨100, ⟨2020, 1, 15, 10, 0, 0⟩, none, true, true⟩

/-- Upload grants a token, every commit attempt answers 500. -/
def rsCommitFail : RS := ⟨stF, emptyFails, stF, emptyFails, [], [some "tok1"],
  [CResp.err 500, CResp.err 500, CResp.err 500, CResp.err 500, CResp.err 500], []⟩

/-- Neutral run state over folder `F` with no scripted responses. -/
def rsPlain : RS := ⟨stF, emptyFails, stF, emptyFails, [], [], [], []⟩

/-- First commit 404s (missing album), the creation yields `A2`, the
retried commit against `A2` answers 500, the next commit answers 200. -/
def rsStale : RS := ⟨[("F", ⟨"A1", "/p", []⟩)], emptyFails, [("F", ⟨"A1", "/p", []⟩)],
  emptyFails, [some "A2"], [], [CResp.r404missing, CResp.err 500, CResp.ok], []⟩

/-- First commit 404s (missing album), creation yields `A2`, the retried
commit against `A2` succeeds. -/
def rsStaleOk : RS := ⟨[("F", ⟨"A1", "/p", []⟩)], emptyFails, [("F", ⟨"A1", "/p", []⟩)],
  emptyFails, [some "A2"], [], [CResp.r404missing, CResp.ok], []⟩

/-- Upload grants a token, every commit attempt answers 429. -/
def rsRate : RS := ⟨stF, emptyFails, stF, emptyFails, [], [some "t"],
  [CResp.r429, CResp.r429, CResp.r429, CResp.r429, CResp.r429], []⟩

/-- A single 429 followed by a successful commit. -/
def rsRateOk : RS := ⟨stF, emptyFails, stF, emptyFails, [], [],
  [CResp.r429, CResp.ok], []⟩

/-- Empty SyncState; the remote grants one album creation. -/
def rsDry : RS := ⟨[], emptyFails, [], emptyFails, [some "A1"], [], [], []⟩

def rsCreateOnly : RS := ⟨[], emptyFails, [], emptyFails, [some "A9"], [], [], []⟩

/-- Two files parked under `UploadError`; both retries will succeed. -/
def failsRetry : Failures := ⟨[("F", ⟨"/root/F", ["a.jpg", "b.jpg"]⟩)], [], [], [], []⟩

def rsRetry : RS := ⟨stF, failsRetry, stF, failsRetry, [], [some "t1", some "t2"],
  [CResp.ok, CResp.ok], []⟩

/-- One unsupported-extension file parked under `UploadError`. -/
def failsPng : Failures := ⟨[("F", ⟨"/root/F", ["x.png"]⟩)], [], [], [], []⟩

def rsRetryPng : RS := ⟨stF, failsPng, stF, failsPng, [], [], [], []⟩

/-! ## Facts about the date reconciliation -/

theorem validYMD_iff {y m d : Nat} :
    validYMD y m d = true ↔
      1 ≤ y ∧ y ≤ 9999 ∧ 1 ≤ m ∧ m ≤ 12 ∧ 1 ≤ d ∧ d ≤ daysInMonth y m := by
  simp [validYMD, Bool.and_eq_true, decide_eq_true_iff, and_assoc]

theorem one_le_daysInMonth (y m : Nat) : 1 ≤ daysInMonth y m := by
  unfold daysInMonth
  split
  · split <;> omega
  · split <;> omega

theorem replaceYMD_some {dt : PyDateTime} {y m d : Nat} {r : PyDateTime}
    (h : replaceYMD dt y m d = some r) :
    r.year = y ∧ r.month = m ∧ r.day = d ∧
    r.hour = dt.hour ∧ r.minute = dt.minute ∧ r.second = dt.second := by
  unfold replaceYMD at h
  split at h
  · injection h with h
    subst h
    exact ⟨rfl, rfl, rfl, rfl, rfl, rfl⟩
  · cases h

theorem stepY_some {orig : PyDateTime} {y : Option Nat} {s1 : PyDateTime}
    (h : stepY orig y = some s1) :
    s1.year = y.getD orig.year ∧ s1.month = orig.month ∧ s1.day = orig.day ∧
    s1.hour = orig.hour ∧ s1.minute = orig.minute ∧ s1.second = orig.second := by
  cases y with
  | none =>
    simp only [stepY] at h
    injection h with h
    subst h
    exact ⟨rfl, rfl, rfl, rfl, rfl, rfl⟩
  | some yv =>
    simp only [stepY] at h
    split at h
    · obtain ⟨h1, h2, h3, h4, h5, h6⟩ := replaceYMD_some h
      exact ⟨h1, h2, h3, h4, h5, h6⟩
    · injection h with h
      subst h
      simp_all

theorem stepM_some {orig s1 : PyDateTime} {m : Option Nat} {s2 : PyDateTime}
    (hm1 : s1.month = orig.month)
    (h : stepM orig s1 m = some s2) :
    s2.year = s1.year ∧ s2.month = m.getD orig.month ∧ s2.day = s1.day ∧
    s2.hour = s1.hour ∧ s2.minute = s1.minute ∧ s2.second = s1.second := by
  cases m with
  | none =>
    simp only [stepM] at h
    injection h with h
    subst h
    exact ⟨rfl, hm1 ▸ rfl, rfl, rfl, rfl, rfl⟩
  | some mv =>
    simp only [stepM] at h
    split at h
    · obtain ⟨h1, h2, h3, h4, h5, h6⟩ := replaceYMD_some h
      exact ⟨h1, h2, h3, h4, h5, h6⟩
    · injection h with h
      subst h
      simp_all

theorem stepD_some {orig s2 : PyDateTime} {d : Option Nat} {s3 : PyDateTime}
    (hd1 : s2.day = orig.day)
    (h : stepD orig s2 d = some s3) :
    s3.year = s2.year ∧ s3.month = s2.month ∧ s3.day = d.getD orig.day ∧
    s3.hour = s2.hour ∧ s3.minute = s2.minute ∧ s3.second = s2.second := by
  cases d with
  | none =>
    simp only [stepD] at h
    injection h with h
    subst h
    exact ⟨rfl, rfl, hd1 ▸ rfl, rfl, rfl, rfl⟩
  | some dv =>
    simp only [stepD] at h
    split at h
    · obtain ⟨h1, h2, h3, h4, h5, h6⟩ := replaceYMD_some h
      exact ⟨h1, h2, h3, h4, h5, h6⟩
    · injection h with h
      subst h
      simp_all

theorem replaceChain_some {orig : PyDateTime} {y m d : Option Nat} {r : PyDateTime}
    (h : replaceChain orig y m d = some r) :
    r.year = y.getD orig.year ∧ r.month = m.getD orig.month ∧ r.day = d.getD orig.day ∧
    r.hour = orig.hour ∧ r.minute = orig.minute ∧ r.second = orig.second := by
  unfold replaceChain at h
  cases h1 : stepY orig y with
  | none => rw [h1] at h; cases h
  | some s1 =>
    simp only [h1] at h
    cases h2 : stepM orig s1 m with
    | none => simp only [h2] at h; cases h
    | some s2 =>
      simp only [h2] at h
      obtain ⟨a1, a2, a3, a4, a5, a6⟩ := stepY_some h1
      obtain ⟨b1, b2, b3, b4, b5, b6⟩ := stepM_some a2 h2
      obtain ⟨c1, c2, c3, c4, c5, c6⟩ := stepD_some (b3.trans a3) h
      refine ⟨?_, ?_, c3, ?_, ?_, ?_⟩
      · rw [c1, b1, a1]
      · rw [c2, b2]
      · rw [c4, b4, a4]
      · rw [c5, b5, a5]
      · rw [c6, b6, a6]

/-- C8 counterexample: the claim fails on the code in two ways.
(1) Folder name `"2021-13"` parses to the DateSpec `(2021, 13, —)`, on which
`build_datetime_from_folder_info` raises an uncaught `ValueError` (modelled
as `none`): the fallback `replace(year=2021, month=13, day=1)` is itself
invalid, so the function is not total over specs parsed from folder names.
(2) Folder name `"2021-03-15"` with original timestamp `2020-02-29T10:00:00`
yields `2021-03-01` — day forced to 1 — even though substituting year,
month and day gives the perfectly valid date `2021-03-15`: the fallback
fires on an invalid *intermediate* date, not only when the final
substitution would be invalid. -/
theorem deriveCorrectedTimestamp_not_total_cex :
    extractDateFromFolder "2021-13" = some (2021, some 13, none) ∧
    buildDatetimeFromFolderInfo ⟨2020, 1, 15, 10, 0, 0⟩ (some 2021, some 13, none) = none ∧
    extractDateFromFolder "2021-03-15" = some (2021, some 3, some 15) ∧
    buildDatetimeFromFolderInfo ⟨2020, 2, 29, 10, 0, 0⟩ (some 2021, some 3, some 15) =
      some ⟨2021, 3, 1, 10, 0, 0⟩ := by
  refine ⟨by decide, by decide, by decide, by decide⟩

/-- C8 (amended): for every valid original datetime and every DateSpec whose
specified year lies in 1..9999 and whose specified month lies in 1..12,
`build_datetime_from_folder_info` is total and returns a datetime whose year
is the specified year (else the original), whose month is the specified
month (else the original), whose day is either the (specified-or-original)
day or the fallback day 1, and whose time-of-day components are untouched.
Outside those ranges the fallback `replace` itself raises, so the function
is not total; and the day falls back to 1 whenever any intermediate
single-component substitution is invalid, not only when the final combined
date would be. -/
theorem deriveCorrectedTimestamp_props (orig : PyDateTime) (y m d : Option Nat)
    (horig : orig.valid = true)
    (hy : ∀ yv, y = some yv → 1 ≤ yv ∧ yv ≤ 9999)
    (hm : ∀ mv, m = some mv → 1 ≤ mv ∧ mv ≤ 12) :
    ∃ r, buildDatetimeFromFolderInfo orig (y, m, d) = some r ∧
      r.year = y.getD orig.year ∧ r.month = m.getD orig.month ∧
      (r.day = d.getD orig.day ∨ r.day = 1) ∧
      r.hour = orig.hour ∧ r.minute = orig.minute ∧ r.second = orig.second := by
  obtain ⟨o1, o2, o3, o4, o5, o6⟩ := validYMD_iff.mp horig
  cases hchain : replaceChain orig y m d with
  | some r =>
    obtain ⟨h1, h2, h3, h4, h5, h6⟩ := replaceChain_some hchain
    exact ⟨r, by simp [buildDatetimeFromFolderInfo, hchain], h1, h2, Or.inl h3, h4, h5, h6⟩
  | none =>
    have hyv : 1 ≤ y.getD orig.year ∧ y.getD orig.year ≤ 9999 := by
      cases y with
      | none => exact ⟨o1, o2⟩
      | some yv => simpa using hy yv rfl
    have hmv : 1 ≤ m.getD orig.month ∧ m.getD orig.month ≤ 12 := by
      cases m with
      | none => exact ⟨o3, o4⟩
      | some mv => simpa using hm mv rfl
    have hvalid : validYMD (y.getD orig.year) (m.getD orig.month) 1 = true :=
      validYMD_iff.mpr ⟨hyv.1, hyv.2, hmv.1, hmv.2, le_refl 1, one_le_daysInMonth _ _⟩
    refine ⟨{ orig with year := y.getD orig.year, month := m.getD orig.month, day := 1 }, ?_,
      rfl, rfl, Or.inr rfl, rfl, rfl, rfl⟩
    simp [buildDatetimeFromFolderInfo, hchain, replaceYMD, hvalid]

/-- C8 witness: the amended theorem instantiated at the spec's own example —
folder `"2021-07"` (DateSpec `(2021, 7, —)`) with original timestamp
`2020-01-15T10:00:00` — together with the concrete corrected value
`2021-07-15T10:00:00` for that example. -/
theorem deriveCorrectedTimestamp_props_witness :
    buildDatetimeFromFolderInfo ⟨2020, 1, 15, 10, 0, 0⟩ (some 2021, some 7, none) =
      some ⟨2021, 7, 15, 10, 0, 0⟩ ∧
    ∃ r, buildDatetimeFromFolderInfo ⟨2020, 1, 15, 10, 0, 0⟩ (some 2021, some 7, none) = some r ∧
      r.year = (some 2021).getD 2020 ∧ r.month = (some 7).getD 1 ∧
      (r.day = (none : Option Nat).getD 15 ∨ r.day = 1) ∧
      r.hour = 10 ∧ r.minute = 0 ∧ r.second = 0 :=
  ⟨by decide,
   deriveCorrectedTimestamp_props ⟨2020, 1, 15, 10, 0, 0⟩ (some 2021) (some 7) none
     (by decide)
     (fun yv h => by injection h with h; omega)
     (fun mv h => by injection h with h; omega)⟩

/-! ## Dictionary lemmas -/

theorem lookupA_setA_self {α : Type} (l : List (String × α)) (k : String) (v : α) :
    lookupA (setA l k v) k = some v := by
  induction l with
  | nil => simp [setA, lookupA]
  | cons hd t ih =>
    obtain ⟨k1, v1⟩ := hd
    by_cases hk : k1 = k
    · simp [setA, hk, lookupA]
    · simp [setA, hk, lookupA, ih]

theorem lookupA_append_of_none {α : Type} {l : List (String × α)} {k : String}
    (h : lookupA l k = none) (v : α) :
    lookupA (l ++ [(k, v)]) k = some v := by
  induction l with
  | nil => simp [lookupA]
  | cons hd t ih =>
    obtain ⟨k1, v1⟩ := hd
    simp only [lookupA] at h
    by_cases hk : k1 = k
    · rw [if_pos hk] at h; cases h
    · rw [if_neg hk] at h
      simp only [List.cons_append, lookupA, if_neg hk]
      exact ih h

theorem lookupA_eq_none_iff {α : Type} {l : List (String × α)} {k : String} :
    lookupA l k = none ↔ k ∉ l.map Prod.fst := by
  induction l with
  | nil => simp [lookupA]
  | cons hd t ih =>
    obtain ⟨k1, v1⟩ := hd
    by_cases hk : k1 = k
    · simp [lookupA, hk]
    · simp [lookupA, hk, ih, Ne.symm hk]

/-- Keys of an association list are pairwise distinct (true of every
dictionary the program builds). -/
abbrev keyNodup {α : Type} (l : List (String × α)) : Prop := (l.map Prod.fst).Nodup

theorem lookupA_delA_self_of_nodup {α : Type} {l : List (String × α)}
    (h : keyNodup l) (k : String) :
    lookupA (delA l k) k = none := by
  induction l with
  | nil => simp [delA, lookupA]
  | cons hd t ih =>
    obtain ⟨k1, v1⟩ := hd
    obtain ⟨h1, h2⟩ := List.nodup_cons.mp h
    by_cases hk : k1 = k
    · simp only [delA, if_pos hk]
      exact lookupA_eq_none_iff.mpr (hk ▸ h1)
    · simp only [delA, if_neg hk, lookupA, if_neg hk]
      exact ih h2

theorem Failures.get_set_same (fl : Failures) (k : FailKind) (l : List (String × FailEntry)) :
    (fl.set k l).get k = l := by
  cases k <;> rfl

theorem Failures.get_set_ne (fl : Failures) {k k' : FailKind} (h : k ≠ k')
    (l : List (String × FailEntry)) :
    (fl.set k l).get k' = fl.get k' := by
  cases k <;> cases k' <;> first | rfl | exact absurd rfl h

theorem Failures.set_set_same (fl : Failures) (k : FailKind) (l : List (String × FailEntry)) :
    (fl.set k l).set k l = fl.set k l := by
  cases k <;> rfl

theorem Failures.set_get_self (fl : Failures) (k : FailKind) :
    fl.set k (fl.get k) = fl := by
  cases k <;> rfl

theorem mem_filesOfFail_add (fl : Failures) (k : FailKind) (fo fi p : String) :
    fi ∈ filesOfFail (addFailureData fl k fo fi p) k fo := by
  simp only [addFailureData, filesOfFail]
  cases hl : lookupA (fl.get k) fo with
  | none =>
    rw [Failures.get_set_same, lookupA_append_of_none hl]
    simp
  | some e =>
    by_cases hm : fi ∈ e.files
    · simp [hl, hm, Failures.get_set_same]
    · simp [hm, Failures.get_set_same, lookupA_setA_self]

theorem filesOfFail_add_ne (fl : Failures) {k k' : FailKind} (fo fo' fi p : String)
    (h : k ≠ k') :
    filesOfFail (addFailureData fl k fo fi p) k' fo' = filesOfFail fl k' fo' := by
  simp only [addFailureData, filesOfFail]
  rw [Failures.get_set_ne _ h]

theorem addFailureData_idem (fl : Failures) (k : FailKind) (fo fi p : String) :
    addFailureData (addFailureData fl k fo fi p) k fo fi p = addFailureData fl k fo fi p := by
  simp only [addFailureData]
  cases hl : lookupA (fl.get k) fo with
  | none =>
    rw [Failures.get_set_same, lookupA_append_of_none hl]
    simp [Failures.set_set_same]
  | some e =>
    by_cases hm : fi ∈ e.files
    · simp [hl, hm, Failures.set_get_self]
    · simp [hl, hm, Failures.get_set_same, lookupA_setA_self, Failures.set_set_same]

theorem filesOfFail_remove (fl : Failures) (k : FailKind) (fo fi : String)
    (h : keyNodup (fl.get k)) :
    filesOfFail (removeFailureData fl k fo fi) k fo = (filesOfFail fl k fo).erase fi := by
  simp only [removeFailureData, filesOfFail]
  cases hl : lookupA (fl.get k) fo with
  | none => simp [hl]
  | some e =>
    by_cases he : e.files.erase fi = []
    · simp [hl, he, Failures.get_set_same, lookupA_delA_self_of_nodup h]
    · simp [hl, he, Failures.get_set_same, lookupA_setA_self]

set_option maxRecDepth 20000

/-! ## Projection lemmas for the effectful helpers -/

@[simp] theorem pushEff_st (rs : RS) (e : Eff) : (pushEff rs e).st = rs.st := rfl

@[simp] theorem pushEff_fails (rs : RS) (e : Eff) : (pushEff rs e).fails = rs.fails := rfl

@[simp] theorem pushEff_diskSt (rs : RS) (e : Eff) : (pushEff rs e).diskSt = rs.diskSt := rfl

@[simp] theorem pushEff_diskFails (rs : RS) (e : Eff) : (pushEff rs e).diskFails = rs.diskFails := rfl

@[simp] theorem pushEff_commits (rs : RS) (e : Eff) : (pushEff rs e).commits = rs.commits := rfl

@[simp] theorem pushEff_uploads (rs : RS) (e : Eff) : (pushEff rs e).uploads = rs.uploads := rfl

@[simp] theorem pushEff_creates (rs : RS) (e : Eff) : (pushEff rs e).creates = rs.creates := rfl

@[simp] theorem pushEff_trace (rs : RS) (e : Eff) : (pushEff rs e).trace = rs.trace ++ [e] := rfl

@[simp] theorem addFailure_st (rs : RS) (k : FailKind) (fo fi p : String) :
    (addFailure rs k fo fi p).st = rs.st := rfl

@[simp] theorem addFailure_diskSt (rs : RS) (k : FailKind) (fo fi p : String) :
    (addFailure rs k fo fi p).diskSt = rs.diskSt := rfl

@[simp] theorem addFailure_fails (rs : RS) (k : FailKind) (fo fi p : String) :
    (addFailure rs k fo fi p).fails = addFailureData rs.fails k fo fi p := rfl

@[simp] theorem addFailure_diskFails (rs : RS) (k : FailKind) (fo fi p : String) :
    (addFailure rs k fo fi p).diskFails = addFailureData rs.fails k fo fi p := rfl

@[simp] theorem addFailure_commits (rs : RS) (k : FailKind) (fo fi p : String) :
    (addFailure rs k fo fi p).commits = rs.commits := rfl

@[simp] theorem addFailure_uploads (rs : RS) (k : FailKind) (fo fi p : String) :
    (addFailure rs k fo fi p).uploads = rs.uploads := rfl

@[simp] theorem addFailure_creates (rs : RS) (k : FailKind) (fo fi p : String) :
    (addFailure rs k fo fi p).creates = rs.creates := rfl

@[simp] theorem addFailure_trace (rs : RS) (k : FailKind) (fo fi p : String) :
    (addFailure rs k fo fi p).trace = rs.trace ++ [Eff.saveFailed] := rfl

@[simp] theorem doSaveState_st (rs : RS) : (doSaveState rs).st = rs.st := rfl

@[simp] theorem doSaveState_fails (rs : RS) : (doSaveState rs).fails = rs.fails := rfl

@[simp] theorem doSaveState_diskSt (rs : RS) : (doSaveState rs).diskSt = rs.st := rfl

@[simp] theorem doSaveState_diskFails (rs : RS) : (doSaveState rs).diskFails = rs.diskFails := rfl

@[simp] theorem doSaveState_commits (rs : RS) : (doSaveState rs).commits = rs.commits := rfl

@[simp] theorem doSaveState_uploads (rs : RS) : (doSaveState rs).uploads = rs.uploads := rfl

@[simp] theorem doSaveState_creates (rs : RS) : (doSaveState rs).creates = rs.creates := rfl

@[simp] theorem doSaveState_trace (rs : RS) : (doSaveState rs).trace = rs.trace ++ [Eff.saveState] := rfl

/-! ## Quiet / stuck-commit invariants -/

theorem quiet_refl (a : RS) : Quiet a a := ⟨rfl, rfl, rfl, rfl⟩

theorem quiet_trans {a b c : RS} (h1 : Quiet a b) (h2 : Quiet b c) : Quiet a c :=
  ⟨h2.1.trans h1.1, h2.2.1.trans h1.2.1, h2.2.2.1.trans h1.2.2.1, h2.2.2.2.trans h1.2.2.2⟩

theorem quiet_pushEff (a : RS) (e : Eff) : Quiet a (pushEff a e) := ⟨rfl, rfl, rfl, rfl⟩

theorem noCommitOk_of_eq {a b : RS} (h : b.commits = a.commits) (ha : NoCommitOk a) :
    NoCommitOk b := fun c hc => ha c (h ▸ hc)

/-- With no success and no missing-album 404 left in the commit script, one
attempt of the commit body fails without touching any store. -/
theorem addToAlbumBody_stuck (albumId d folderName : String) (rs : RS) (h : NoCommitOk rs) :
    (addToAlbumBody albumId d folderName rs).2 = Except.error () ∧
    Quiet rs (addToAlbumBody albumId d folderName rs).1 ∧
    NoCommitOk (addToAlbumBody albumId d folderName rs).1 := by
  cases hc : rs.commits with
  | nil =>
    refine ⟨?_, ?_, ?_⟩
    · simp [addToAlbumBody, popCommit, pushEff, hc]
    · simp [addToAlbumBody, popCommit, pushEff, hc, Quiet]
    · intro c' hc'
      simp [addToAlbumBody, popCommit, pushEff, hc] at hc'
  | cons c t =>
    have hct : ∀ c' ∈ t, c' ≠ CResp.ok ∧ c' ≠ CResp.r404missing :=
      fun c' h' => h c' (by rw [hc]; exact List.mem_cons_of_mem c h')
    have hcc := h c (by rw [hc]; exact List.mem_cons_self c t)
    cases c
    case ok => exact absurd rfl hcc.1
    case r404missing => exact absurd rfl hcc.2
    all_goals
      refine ⟨?_, ?_, fun c' hc' => hct c' ?_⟩
      · simp [addToAlbumBody, popCommit, pushEff, hc]
      · simp [addToAlbumBody, popCommit, pushEff, hc, Quiet]
      · simpa [addToAlbumBody, popCommit, pushEff, hc] using hc'

theorem tenacityGo_stuck {α : Type} (body : RS → RS × Except Unit α)
    (P : RS → Prop)
    (hbody : ∀ rs, P rs → (body rs).2 = Except.error () ∧ Quiet rs (body rs).1 ∧ P (body rs).1)
    (hpush : ∀ rs e, P rs → P (pushEff rs e)) :
    ∀ n rs, P rs → (tenacityGo n body rs).2 = Except.error () ∧
      Quiet rs (tenacityGo n body rs).1 ∧ P (tenacityGo n body rs).1 := by
  intro n
  induction n with
  | zero => exact fun rs hP => ⟨rfl, quiet_refl rs, hP⟩
  | succ n ih =>
    intro rs hP
    obtain ⟨he, hq, hP1⟩ := hbody rs hP
    cases hb : body rs with
    | mk rs1 r =>
      rw [hb] at he hq hP1
      simp only at he
      subst he
      cases n with
      | zero =>
        have hres : tenacityGo 1 body rs = (rs1, Except.error ()) := by
          simp [tenacityGo, hb]
        rw [hres]
        exact ⟨rfl, hq, hP1⟩
      | succ m =>
        obtain ⟨he2, hq2, hP2⟩ := ih (pushEff rs1 (Eff.sleep 5)) (hpush rs1 _ hP1)
        have hres : tenacityGo (Nat.succ (Nat.succ m)) body rs =
            tenacityGo (Nat.succ m) body (pushEff rs1 (Eff.sleep 5)) := by
          simp [tenacityGo, hb]
        rw [hres]
        exact ⟨he2, quiet_trans hq (quiet_trans (quiet_pushEff rs1 (Eff.sleep 5)) hq2), hP2⟩

theorem addToAlbum_stuck (albumId d folderName : String) (rs : RS) (h : NoCommitOk rs) :
    (addToAlbum albumId d folderName rs).2 = Except.error () ∧
    Quiet rs (addToAlbum albumId d folderName rs).1 := by
  have hmain := tenacityGo_stuck (addToAlbumBody albumId d folderName) NoCommitOk
    (fun rs h => addToAlbumBody_stuck albumId d folderName rs h)
    (fun rs e h => noCommitOk_of_eq rfl h) 5 rs h
  exact ⟨hmain.1, hmain.2.1⟩

/-- With a token at the head of the upload script and the file within the
size ceiling, the transfer succeeds on the first attempt. -/
theorem uploadFile_first_ok (f : FileInfo) (rs : RS) (tok : String)
    (ups : List (Option String))
    (hsize : ¬ f.size > maxUploadSize) (hup : rs.uploads = some tok :: ups) :
    uploadFile f rs =
      ({ rs with uploads := ups, trace := rs.trace ++ [Eff.upload f.name] },
       Except.ok tok) := by
  simp [uploadFile, tenacity5, tenacityGo, uploadFileBody, hsize, pushEff, popUpload, hup]

/-- With every remaining commit response a failure (no success, no
missing-album 404), the commit phase classifies `AddToAlbumError`. -/
theorem commitPhase_stuck (albumId tok folderName fname fpath : String) (rs : RS)
    (h : NoCommitOk rs) :
    commitPhase albumId tok folderName fname fpath rs =
      (addFailure (addToAlbum albumId tok folderName rs).1 FailKind.AddToAlbumError
        folderName fname fpath, PFRes.ret (some false)) := by
  obtain ⟨he, -⟩ := addToAlbum_stuck albumId tok folderName rs h
  unfold commitPhase
  cases haa : addToAlbum albumId tok folderName rs with
  | mk rs3 r =>
    rw [haa] at he
    simp only at he
    subst he
    rfl

/-! ## No-create invariants (for the album-singleton theorem) -/

@[simp] theorem createCt_nil : createCt [] = 0 := rfl

@[simp] theorem createCt_append (t1 t2 : List Eff) :
    createCt (t1 ++ t2) = createCt t1 + createCt t2 := by
  simp [createCt, List.countP_append]

@[simp] theorem createCt_cons (e : Eff) (t : List Eff) :
    createCt (e :: t) = createCt t + (if isCreateEff e = true then 1 else 0) := by
  simp [createCt, List.countP_cons]

@[simp] theorem isCreateEff_create (s : String) : isCreateEff (Eff.createAlbum s) = true := rfl

@[simp] theorem isCreateEff_list : isCreateEff Eff.listAlbums = false := rfl

@[simp] theorem isCreateEff_upload (s : String) : isCreateEff (Eff.upload s) = false := rfl

@[simp] theorem isCreateEff_commit (s : String) : isCreateEff (Eff.commit s) = false := rfl

@[simp] theorem isCreateEff_sleep (n : Nat) : isCreateEff (Eff.sleep n) = false := rfl

@[simp] theorem isCreateEff_exiftool (s : String) : isCreateEff (Eff.exiftool s) = false := rfl

@[simp] theorem isCreateEff_utime (s : String) : isCreateEff (Eff.utime s) = false := rfl

@[simp] theorem isCreateEff_saveState : isCreateEff Eff.saveState = false := rfl

@[simp] theorem isCreateEff_saveFailed : isCreateEff Eff.saveFailed = false := rfl

@[simp] theorem createCt_push_sleep (t : List Eff) (n : Nat) :
    createCt (t ++ [Eff.sleep n]) = createCt t := by
  simp [createCt, List.countP_append, List.countP_cons, isCreateEff]

@[simp] theorem createCt_push_exiftool (t : List Eff) (s : String) :
    createCt (t ++ [Eff.exiftool s]) = createCt t := by
  simp [createCt, List.countP_append, List.countP_cons, isCreateEff]

@[simp] theorem createCt_push_utime (t : List Eff) (s : String) :
    createCt (t ++ [Eff.utime s]) = createCt t := by
  simp [createCt, List.countP_append, List.countP_cons, isCreateEff]

@[simp] theorem createCt_push_saveState (t : List Eff) :
    createCt (t ++ [Eff.saveState]) = createCt t := by
  simp [createCt, List.countP_append, List.countP_cons, isCreateEff]

@[simp] theorem createCt_push_saveFailed (t : List Eff) :
    createCt (t ++ [Eff.saveFailed]) = createCt t := by
  simp [createCt, List.countP_append, List.countP_cons, isCreateEff]

@[simp] theorem createCt_push_upload (t : List Eff) (s : String) :
    createCt (t ++ [Eff.upload s]) = createCt t := by
  simp [createCt, List.countP_append, List.countP_cons, isCreateEff]

@[simp] theorem createCt_push_commit (t : List Eff) (s : String) :
    createCt (t ++ [Eff.commit s]) = createCt t := by
  simp [createCt, List.countP_append, List.countP_cons, isCreateEff]

@[simp] theorem createCt_push_create (t : List Eff) (s : String) :
    createCt (t ++ [Eff.createAlbum s]) = createCt t + 1 := by
  simp [createCt, List.countP_append, List.countP_cons, isCreateEff]

theorem forceFileDownload_nc (f : FileInfo) (rs : RS) :
    createCt ((forceFileDownload f rs).1).trace = createCt rs.trace ∧
    ((forceFileDownload f rs).1).commits = rs.commits := by
  unfold forceFileDownload
  split <;> simp

theorem updateExif_nc (dry : Bool) (f : FileInfo) (fo : String) (rs : RS) :
    createCt ((updateExifDateIfMismatch dry f fo rs).1).trace = createCt rs.trace ∧
    ((updateExifDateIfMismatch dry f fo rs).1).commits = rs.commits := by
  unfold updateExifDateIfMismatch
  cases hx : extractDateFromFolder fo with
  | none => exact ⟨rfl, rfl⟩
  | some fi =>
    obtain ⟨y, mo, dy⟩ := fi
    simp only [hx]
    cases hb : buildDatetimeFromFolderInfo (f.exifDt.getD f.mtime) (some y, mo, dy) with
    | none => simp [hb]
    | some nd =>
      simp only [hb]
      split_ifs <;> simp

theorem updateFs_nc (dry : Bool) (f : FileInfo) (fo : String) (rs : RS) :
    createCt ((updateFilesystemDateIfMismatch dry f fo rs).1).trace = createCt rs.trace ∧
    ((updateFilesystemDateIfMismatch dry f fo rs).1).commits = rs.commits := by
  unfold updateFilesystemDateIfMismatch
  cases hx : extractDateFromFolder fo with
  | none => exact ⟨rfl, rfl⟩
  | some fi =>
    obtain ⟨y, mo, dy⟩ := fi
    simp only [hx]
    cases hb : replaceChain f.mtime (some y) mo dy with
    | none => simp [hb]
    | some nd =>
      simp only [hb]
      split_ifs <;> simp

theorem dateFixPhase_nc (dry upd : Bool) (f : FileInfo) (fo : String) (rs : RS) :
    createCt ((dateFixPhase dry upd f fo rs).1).trace = createCt rs.trace ∧
    ((dateFixPhase dry upd f fo rs).1).commits = rs.commits := by
  unfold dateFixPhase
  split
  · obtain ⟨hf1, hf2⟩ := forceFileDownload_nc f rs
    cases hf : forceFileDownload f rs with
    | mk rs1 b1 =>
      rw [hf] at hf1 hf2
      dsimp only
      by_cases hs : strLower (suffixOf f.name) ∈ SUPPORTED_EXIF_EXT
      · rw [if_pos hs]
        obtain ⟨he1, he2⟩ := updateExif_nc dry f fo rs1
        cases he : updateExifDateIfMismatch dry f fo rs1 with
        | mk rs2 b2 =>
          rw [he] at he1 he2
          cases b2 with
          | false => exact ⟨he1.trans hf1, he2.trans hf2⟩
          | true =>
            obtain ⟨hw1, hw2⟩ := updateFs_nc dry f fo rs2
            exact ⟨hw1.trans (he1.trans hf1), hw2.trans (he2.trans hf2)⟩
      · rw [if_neg hs]
        dsimp only
        obtain ⟨hw1, hw2⟩ := updateFs_nc dry f fo rs1
        exact ⟨hw1.trans hf1, hw2.trans hf2⟩
  · exact ⟨rfl, rfl⟩

theorem uploadFileBody_nc (f : FileInfo) (rs : RS) :
    createCt ((uploadFileBody f rs).1).trace = createCt rs.trace ∧
    ((uploadFileBody f rs).1).commits = rs.commits := by
  unfold uploadFileBody popUpload
  by_cases hs : f.size > maxUploadSize
  · simp [hs]
  · rw [if_neg hs]
    rcases hu : rs.uploads with _ | ⟨r, rest⟩
    · simp [hu]
    · rcases r with _ | tok <;> simp [hu]

theorem tenacityGo_nc {α : Type} (body : RS → RS × Except Unit α)
    (hbody : ∀ rs, No404 rs →
      createCt ((body rs).1).trace = createCt rs.trace ∧ No404 (body rs).1) :
    ∀ n rs, No404 rs →
      createCt ((tenacityGo n body rs).1).trace = createCt rs.trace ∧
      No404 (tenacityGo n body rs).1 := by
  intro n
  induction n with
  | zero => exact fun rs h => ⟨rfl, h⟩
  | succ n ih =>
    intro rs h
    obtain ⟨hct, h4⟩ := hbody rs h
    cases hb : body rs with
    | mk rs1 r =>
      rw [hb] at hct h4
      cases r with
      | ok a =>
        have hres : tenacityGo (Nat.succ n) body rs = (rs1, Except.ok a) := by
          simp [tenacityGo, hb]
        rw [hres]
        exact ⟨hct, h4⟩
      | error e =>
        cases n with
        | zero =>
          have hres : tenacityGo 1 body rs = (rs1, Except.error ()) := by
            simp [tenacityGo, hb]
          rw [hres]
          exact ⟨hct, h4⟩
        | succ m =>
          have hres : tenacityGo (Nat.succ (Nat.succ m)) body rs =
              tenacityGo (Nat.succ m) body (pushEff rs1 (Eff.sleep 5)) := by
            simp [tenacityGo, hb]
          rw [hres]
          obtain ⟨hct2, h42⟩ := ih (pushEff rs1 (Eff.sleep 5)) h4
          constructor
          · rw [hct2]; simp [hct]
          · exact h42

theorem uploadFile_nc (f : FileInfo) (rs : RS) (h : No404 rs) :
    createCt ((uploadFile f rs).1).trace = createCt rs.trace ∧
    No404 (uploadFile f rs).1 := by
  have hmain := tenacityGo_nc (uploadFileBody f)
    (fun rs h => by
      obtain ⟨h1, h2⟩ := uploadFileBody_nc f rs
      exact ⟨h1, by rw [No404, h2]; exact h⟩)
    5 rs h
  simpa [uploadFile, tenacity5] using hmain

theorem addToAlbumBody_nc (albumId d fo : String) (rs : RS) (h : No404 rs) :
    createCt ((addToAlbumBody albumId d fo rs).1).trace = createCt rs.trace ∧
    No404 (addToAlbumBody albumId d fo rs).1 := by
  cases hc : rs.commits with
  | nil =>
    constructor <;> simp [addToAlbumBody, popCommit, hc, No404]
  | cons c t =>
    have hct : CResp.r404missing ∉ t :=
      fun hm => h (by rw [hc]; exact List.mem_cons_of_mem c hm)
    have hcc : c ≠ CResp.r404missing :=
      fun he => h (by rw [hc, he]; exact List.mem_cons_self _ _)
    cases c
    case r404missing => exact absurd rfl hcc
    all_goals
      constructor <;> simp [addToAlbumBody, popCommit, hc, No404, hct]

theorem addToAlbum_nc (albumId d fo : String) (rs : RS) (h : No404 rs) :
    createCt ((addToAlbum albumId d fo rs).1).trace = createCt rs.trace ∧
    No404 (addToAlbum albumId d fo rs).1 := by
  have hmain := tenacityGo_nc (addToAlbumBody albumId d fo)
    (fun rs h => addToAlbumBody_nc albumId d fo rs h) 5 rs h
  simpa [addToAlbum, tenacity5] using hmain

theorem commitPhase_nc (albumId tok fo fn fp : String) (rs : RS) (h : No404 rs) :
    createCt ((commitPhase albumId tok fo fn fp rs).1).trace = createCt rs.trace ∧
    No404 (commitPhase albumId tok fo fn fp rs).1 := by
  obtain ⟨hct, h4⟩ := addToAlbum_nc albumId tok fo rs h
  unfold commitPhase
  cases haa : addToAlbum albumId tok fo rs with
  | mk rs3 r =>
    rw [haa] at hct h4
    cases r with
    | ok a => exact ⟨hct, h4⟩
    | error e =>
      constructor
      · simp [hct]
      · simpa using h4

theorem uploadAndCommit_nc (f : FileInfo) (fo aid fp : String) (rs : RS) (h : No404 rs) :
    createCt ((uploadAndCommit f fo aid fp rs).1).trace = createCt rs.trace ∧
    No404 (uploadAndCommit f fo aid fp rs).1 := by
  obtain ⟨hu1, hu2⟩ := uploadFile_nc f rs h
  unfold uploadAndCommit
  cases hu : uploadFile f rs with
  | mk rs1 r =>
    rw [hu] at hu1 hu2
    dsimp only at hu1 hu2
    cases r with
    | error e =>
      dsimp only
      exact ⟨by simp [hu1], by simpa [No404] using hu2⟩
    | ok tok =>
      dsimp only
      cases hl : lookupSt rs1.st fo with
      | none => exact ⟨hu1, hu2⟩
      | some ar =>
        obtain ⟨hc1, hc2⟩ := commitPhase_nc aid tok fo f.name fp
          (doSaveState
            { rs1 with st := setSt rs1.st fo ⟨ar.album_id, ar.path, ar.files ++ [f.name]⟩ })
          hu2
        constructor
        · rw [hc1]
          simp [hu1]
        · exact hc2

theorem processFile_nc (dry upd : Bool) (f : FileInfo) (fo aid fp : String) (rs : RS)
    (h : No404 rs) :
    createCt ((processFile dry upd f fo aid fp rs).1).trace = createCt rs.trace ∧
    No404 (processFile dry upd f fo aid fp rs).1 := by
  unfold processFile
  split
  · exact ⟨rfl, h⟩
  · split
    · exact ⟨rfl, h⟩
    · obtain ⟨hd1, hd2⟩ := dateFixPhase_nc dry upd f fo rs
      cases hdp : dateFixPhase dry upd f fo rs with
      | mk rs1 ok1 =>
        rw [hdp] at hd1 hd2
        dsimp only at hd1 hd2
        have h1 : No404 rs1 := by rw [No404, hd2]; exact h
        cases ok1 with
        | false =>
          dsimp only
          exact ⟨hd1, h1⟩
        | true =>
          dsimp only
          split
          · exact ⟨hd1, h1⟩
          · obtain ⟨hu1, hu2⟩ := uploadAndCommit_nc f fo aid fp rs1 h1
            exact ⟨hu1.trans hd1, hu2⟩

theorem dispatchFile_nc (dry upd : Bool) (fo aid fp : String) (stFiles : List String)
    (f : FileInfo) (rs : RS) (h : No404 rs) :
    createCt ((dispatchFile dry upd fo aid fp stFiles f rs).1).trace = createCt rs.trace ∧
    No404 (dispatchFile dry upd fo aid fp stFiles f rs).1 := by
  unfold dispatchFile
  split
  · split
    · exact ⟨rfl, h⟩
    · obtain ⟨h1, h2⟩ := processFile_nc dry upd f fo aid fp rs h
      cases hp : processFile dry upd f fo aid fp rs with
      | mk rs1 r =>
        rw [hp] at h1 h2
        cases r with
        | crashed => exact ⟨h1, h2⟩
        | ret b => exact ⟨h1, h2⟩
  · exact ⟨rfl, h⟩

theorem fileLoop_nc (dry upd : Bool) (fo aid fp : String) (stFiles : List String) :
    ∀ (files : List FileInfo) (rs : RS), No404 rs →
      createCt ((fileLoop dry upd fo aid fp stFiles files rs).1).trace = createCt rs.trace ∧
      No404 (fileLoop dry upd fo aid fp stFiles files rs).1 := by
  intro files
  induction files with
  | nil => exact fun rs h => ⟨rfl, h⟩
  | cons f rest ih =>
    intro rs h
    obtain ⟨h1, h2⟩ := dispatchFile_nc dry upd fo aid fp stFiles f rs h
    cases hd : dispatchFile dry upd fo aid fp stFiles f rs with
    | mk rs1 b =>
      rw [hd] at h1 h2
      cases b with
      | true =>
        have hres : fileLoop dry upd fo aid fp stFiles (f :: rest) rs = (rs1, true) := by
          simp [fileLoop, hd]
        rw [hres]
        exact ⟨h1, h2⟩
      | false =>
        have hres : fileLoop dry upd fo aid fp stFiles (f :: rest) rs =
            fileLoop dry upd fo aid fp stFiles rest rs1 := by
          simp [fileLoop, hd]
        rw [hres]
        obtain ⟨h3, h4⟩ := ih rs1 h2
        exact ⟨h3.trans h1, h4⟩

theorem createAlbum_first_ok (title : String) (rs : RS) (aid : String)
    (crest : List (Option String)) (hcr : rs.creates = some aid :: crest) :
    createAlbum title rs =
      ({ rs with creates := crest, trace := rs.trace ++ [Eff.createAlbum (title.take 100)] },
       Except.ok aid) := by
  simp [createAlbum, tenacity5, tenacityGo, createAlbumBody, pushEff, popCreate, hcr]

/-! ## C1: when is a filename appended to `uploaded_files`? -/

/-- C1 counterexample: upload succeeds, every commit attempt answers HTTP
500.  `process_file` returns `False`, yet `a.jpg` is in the folder's
`uploaded_files` (it was appended and persisted right after the transfer,
before the commit) while the same file sits parked under
`AddToAlbumError` — a reachable state in which `uploaded_files` contains a
filename whose commit to the album failed. -/
theorem uploadedFiles_contains_uncommitted :
    (processFile false false fileA "F" "A1" "/root/F" rsCommitFail).2 = PFRes.ret (some false) ∧
    "a.jpg" ∈ filesOfState (processFile false false fileA "F" "A1" "/root/F" rsCommitFail).1.st "F" ∧
    "a.jpg" ∈ filesOfFail (processFile false false fileA "F" "A1" "/root/F" rsCommitFail).1.fails
      FailKind.AddToAlbumError "F" := by
  refine ⟨by decide, by decide, by decide⟩

/-- The upload/commit phase when the transfer succeeds on the first attempt
but every remaining commit response is a failure: the filename is appended
to the folder's `uploaded_files` and SyncState is persisted *before* the
commit; the commit then fails without touching the stores, and the file is
additionally parked under `AddToAlbumError`. -/
theorem uploadAndCommit_commitFail (f : FileInfo) (folderName albumId folderPath tok : String)
    (rs : RS) (ar : AlbumRecord) (ups : List (Option String))
    (har : lookupSt rs.st folderName = some ar)
    (hsize : ¬ f.size > maxUploadSize)
    (hup : rs.uploads = some tok :: ups)
    (hcm : NoCommitOk rs) :
    ∃ rs3, uploadAndCommit f folderName albumId folderPath rs =
        (addFailure rs3 FailKind.AddToAlbumError folderName f.name folderPath,
         PFRes.ret (some false)) ∧
      rs3.st = setSt rs.st folderName ⟨ar.album_id, ar.path, ar.files ++ [f.name]⟩ ∧
      rs3.diskSt = rs3.st ∧ rs3.fails = rs.fails := by
  unfold uploadAndCommit
  rw [uploadFile_first_ok f rs tok ups hsize hup]
  dsimp only
  rw [show lookupSt rs.st folderName = some ar from har]
  dsimp only
  rw [commitPhase_stuck albumId tok folderName f.name folderPath
      (doSaveState
        { rs with
            st := setSt rs.st folderName ⟨ar.album_id, ar.path, ar.files ++ [f.name]⟩,
            uploads := ups, trace := rs.trace ++ [Eff.upload f.name] })
      (noCommitOk_of_eq rfl hcm)]
  refine ⟨_, rfl, ?_, ?_, ?_⟩
  all_goals
    obtain ⟨-, hq⟩ := addToAlbum_stuck albumId tok folderName
      (doSaveState
        { rs with
            st := setSt rs.st folderName ⟨ar.album_id, ar.path, ar.files ++ [f.name]⟩,
            uploads := ups, trace := rs.trace ++ [Eff.upload f.name] })
      (noCommitOk_of_eq rfl hcm)
  · exact hq.1
  · exact hq.2.2.1.trans hq.1.symm
  · exact hq.2.1

/-- C1 (amended): the filename is appended to the folder's `uploaded_files`
(and SyncState persisted) immediately after a successful *transfer*, before
the commit.  When the commit then fails — every scripted commit response a
plain failure — `process_file` returns `False` and parks the file under
`AddToAlbumError`, yet the filename is (durably) in `uploaded_files`:
membership witnesses a completed transfer, not a completed commit. -/
theorem uploadedFiles_tracks_transfer (f : FileInfo) (folderName albumId folderPath tok : String)
    (rs : RS) (ar : AlbumRecord) (ups : List (Option String))
    (hstart : pyStartsWith f.path folderPath = true)
    (har : lookupSt rs.st folderName = some ar)
    (hmem : f.name ∉ ar.files)
    (hsize : ¬ f.size > maxUploadSize)
    (hup : rs.uploads = some tok :: ups)
    (hcm : NoCommitOk rs) :
    (processFile false false f folderName albumId folderPath rs).2 = PFRes.ret (some false) ∧
    f.name ∈ filesOfState (processFile false false f folderName albumId folderPath rs).1.st
      folderName ∧
    (processFile false false f folderName albumId folderPath rs).1.diskSt =
      (processFile false false f folderName albumId folderPath rs).1.st ∧
    f.name ∈ filesOfFail (processFile false false f folderName albumId folderPath rs).1.fails
      FailKind.AddToAlbumError folderName := by
  have hpf : processFile false false f folderName albumId folderPath rs =
      uploadAndCommit f folderName albumId folderPath rs := by
    simp [processFile, dateFixPhase, hstart, filesOfState, har, hmem]
  obtain ⟨rs3, heq, h1, h2, h3⟩ :=
    uploadAndCommit_commitFail f folderName albumId folderPath tok rs ar ups har hsize hup hcm
  rw [hpf, heq]
  refine ⟨rfl, ?_, ?_, ?_⟩
  · simp [filesOfState, lookupSt, setSt, addFailure_st, h1, lookupA_setA_self]
  · simp only [addFailure_st, addFailure_diskSt, h2]
  · simp only [addFailure_fails]
    exact mem_filesOfFail_add _ _ _ _ _

/-- C1 witness: the amended theorem at the concrete commit-failure run. -/
theorem uploadedFiles_tracks_transfer_witness :
    (processFile false false fileA "F" "A1" "/root/F" rsCommitFail).2 = PFRes.ret (some false) ∧
    "a.jpg" ∈ filesOfState (processFile false false fileA "F" "A1" "/root/F" rsCommitFail).1.st
      "F" ∧
    (processFile false false fileA "F" "A1" "/root/F" rsCommitFail).1.diskSt =
      (processFile false false fileA "F" "A1" "/root/F" rsCommitFail).1.st ∧
    "a.jpg" ∈ filesOfFail (processFile false false fileA "F" "A1" "/root/F" rsCommitFail).1.fails
      FailKind.AddToAlbumError "F" :=
  uploadedFiles_tracks_transfer fileA "F" "A1" "/root/F" "tok1" rsCommitFail recF []
    (by decide) (by decide) (by decide) (by decide) (by decide) (by decide)

/-! ## C2: dry-run purity -/

/-- C2: with dry-run (and the date-fix flag) enabled and an unseen folder,
the run issues a real remote album-create call (the dry-run branch of the
main loop only logs "Would create album" and then falls through) and
invokes exiftool twice (`force_file_download`, then the EXIF read inside
`update_exif_date_if_mismatch`).  Upload/commit calls and `os.utime`
writes are indeed absent from the trace. -/
theorem dryRun_issues_album_create :
    (folderStep true true "2021-07" "/root/2021-07" [fileDry] rsDry).1.trace =
      [Eff.createAlbum "2021-07", Eff.saveState, Eff.exiftool "force", Eff.exiftool "read"] := by
  decide

/-! ## C3: album resolution order -/

/-- C3 counterexample: the cache/remote-listing steps of the claimed
four-step resolution are skipped.  `search_album_by_name` *would* resolve
folder `Trip` from the remote listing (first conjunct), but the driver,
given a SyncState without `Trip`, issues a remote creation straight away
and never issues a listing request (no `listAlbums` effect). -/
theorem resolution_skips_cache_and_listing :
    searchAlbumByName [] [] [[("Trip", "A1")]] "Trip" = (some "A1", [("Trip", "A1")]) ∧
    (folderStep false false "Trip" "/root/Trip" [] rsCreateOnly).1.trace =
      [Eff.createAlbum "Trip", Eff.saveState] ∧
    Eff.listAlbums ∉ (folderStep false false "Trip" "/root/Trip" [] rsCreateOnly).1.trace := by
  refine ⟨by decide, by decide, by decide⟩

/-- C3 (amended): the driver resolves an album in two steps — the SyncState
entry, else a remote creation (the cache/listing helper is never invoked) —
and, provided the remote grants the creation on the first attempt and no
commit response is a missing-album 404, a folder pass over any list of
files issues exactly one album-create call when the folder is absent from
SyncState and none when it is present, regardless of the number of files. -/
theorem album_create_at_most_once (dry upd : Bool) (folderName folderPathArg : String)
    (files : List FileInfo) (rs : RS) (aid : String) (crest : List (Option String))
    (h404 : No404 rs)
    (hcr : rs.creates = some aid :: crest) :
    createCt ((folderStep dry upd folderName folderPathArg files rs).1).trace =
      createCt rs.trace + (if (lookupSt rs.st folderName).isSome then 0 else 1) := by
  unfold folderStep
  cases hl : lookupSt rs.st folderName with
  | some ar =>
    dsimp only
    obtain ⟨h1, -⟩ := fileLoop_nc dry upd folderName ar.album_id ar.path
      (filesOfState rs.st folderName) files rs h404
    simp [h1, hl]
  | none =>
    rw [createAlbum_first_ok folderName rs aid crest hcr]
    dsimp only
    obtain ⟨h1, -⟩ := fileLoop_nc dry upd folderName aid folderPathArg
      (filesOfState
        (doSaveState
          { rs with
              creates := crest,
              trace := rs.trace ++ [Eff.createAlbum (folderName.take 100)],
              st := setSt rs.st folderName ⟨aid, folderPathArg, []⟩ }).st folderName) files
      (doSaveState
        { rs with
            creates := crest,
            trace := rs.trace ++ [Eff.createAlbum (folderName.take 100)],
            st := setSt rs.st folderName ⟨aid, folderPathArg, []⟩ })
      h404
    rw [h1]
    simp [hl]

/-- C3 witness: the amended theorem at a concrete folder absent from
SyncState, where exactly one create call is issued. -/
theorem album_create_at_most_once_witness :
    createCt ((folderStep false false "Trip" "/root/Trip" [] rsCreateOnly).1).trace =
      createCt rsCreateOnly.trace +
        (if (lookupSt rsCreateOnly.st "Trip").isSome then 0 else 1) :=
  album_create_at_most_once false false "Trip" "/root/Trip" [] rsCreateOnly "A9" []
    (by decide) (by decide)

/-! ## C4: oversized files -/

/-- C4 counterexample: a file one byte over the 10 GiB ceiling.  The size
check sits inside the retry-wrapped transfer, so the body is attempted five
times (four retry waits, five registry saves of the `TooLarge` insert);
after exhaustion the caller *additionally* classifies the file as
`UploadError`.  No HTTP upload request is ever sent. -/
theorem tooLarge_retried_and_double_classified :
    (processFile false false fileBig "F" "A1" "/root/F" rsPlain).2 = PFRes.ret (some false) ∧
    "big.mp4" ∈ filesOfFail (processFile false false fileBig "F" "A1" "/root/F" rsPlain).1.fails
      FailKind.TooLarge "F" ∧
    "big.mp4" ∈ filesOfFail (processFile false false fileBig "F" "A1" "/root/F" rsPlain).1.fails
      FailKind.UploadError "F" ∧
    (processFile false false fileBig "F" "A1" "/root/F" rsPlain).1.trace =
      [Eff.saveFailed, Eff.sleep 5, Eff.saveFailed, Eff.sleep 5, Eff.saveFailed,
       Eff.sleep 5, Eff.saveFailed, Eff.sleep 5, Eff.saveFailed, Eff.saveFailed] := by
  refine ⟨by decide, by decide, by decide, by decide⟩

/-- C4 (amended): for every file over the 10 GiB ceiling the pipeline
records a `TooLarge` failure and aborts the file — no upload request, no
commit, no addition to `uploaded_files` — but the check is re-run five
times by the retry wrapper (four `sleep 5` waits in the trace, one
registry save per attempt), and the file is additionally classified
`UploadError` by the caller, so it ends up under both kinds. -/
theorem tooLarge_aborts_upload (f : FileInfo) (folderName albumId folderPath : String)
    (rs : RS) (ar : AlbumRecord)
    (hsize : f.size > maxUploadSize)
    (hstart : pyStartsWith f.path folderPath = true)
    (har : lookupSt rs.st folderName = some ar)
    (hmem : f.name ∉ ar.files) :
    (processFile false false f folderName albumId folderPath rs).2 = PFRes.ret (some false) ∧
    f.name ∈ filesOfFail (processFile false false f folderName albumId folderPath rs).1.fails
      FailKind.TooLarge (baseName f.dir) ∧
    f.name ∈ filesOfFail (processFile false false f folderName albumId folderPath rs).1.fails
      FailKind.UploadError folderName ∧
    (processFile false false f folderName albumId folderPath rs).1.st = rs.st ∧
    (processFile false false f folderName albumId folderPath rs).1.trace =
      rs.trace ++ [Eff.saveFailed, Eff.sleep 5, Eff.saveFailed, Eff.sleep 5, Eff.saveFailed,
        Eff.sleep 5, Eff.saveFailed, Eff.sleep 5, Eff.saveFailed, Eff.saveFailed] := by
  have hpf : processFile false false f folderName albumId folderPath rs =
      uploadAndCommit f folderName albumId folderPath rs := by
    simp [processFile, dateFixPhase, hstart, filesOfState, har, hmem]
  have hup5 : uploadFile f rs =
      (addFailure (pushEff (addFailure (pushEff (addFailure (pushEff (addFailure (pushEff
          (addFailure rs FailKind.TooLarge (baseName f.dir) f.name f.dir) (Eff.sleep 5))
          FailKind.TooLarge (baseName f.dir) f.name f.dir) (Eff.sleep 5))
          FailKind.TooLarge (baseName f.dir) f.name f.dir) (Eff.sleep 5))
          FailKind.TooLarge (baseName f.dir) f.name f.dir) (Eff.sleep 5))
          FailKind.TooLarge (baseName f.dir) f.name f.dir,
       Except.error ()) := by
    simp [uploadFile, tenacity5, tenacityGo, uploadFileBody, hsize]
  rw [hpf]
  unfold uploadAndCommit
  rw [hup5]
  dsimp only
  refine ⟨rfl, ?_, ?_, ?_, ?_⟩
  · simp only [addFailure_fails, pushEff_fails]
    rw [filesOfFail_add_ne _ _ _ _ _ (by decide : FailKind.UploadError ≠ FailKind.TooLarge)]
    exact mem_filesOfFail_add _ _ _ _ _
  · simp only [addFailure_fails, pushEff_fails]
    exact mem_filesOfFail_add _ _ _ _ _
  · simp only [addFailure_st, pushEff_st]
  · simp only [addFailure_trace, pushEff_trace, List.append_assoc]
    rfl

/-- C4 witness: the amended theorem at the concrete 10 GiB + 1 file. -/
theorem tooLarge_aborts_upload_witness :
    (processFile false false fileBig "F" "A1" "/root/F" rsPlain).2 = PFRes.ret (some false) ∧
    "big.mp4" ∈ filesOfFail (processFile false false fileBig "F" "A1" "/root/F" rsPlain).1.fails
      FailKind.TooLarge (baseName fileBig.dir) ∧
    "big.mp4" ∈ filesOfFail (processFile false false fileBig "F" "A1" "/root/F" rsPlain).1.fails
      FailKind.UploadError "F" ∧
    (processFile false false fileBig "F" "A1" "/root/F" rsPlain).1.st = rsPlain.st ∧
    (processFile false false fileBig "F" "A1" "/root/F" rsPlain).1.trace =
      rsPlain.trace ++ [Eff.saveFailed, Eff.sleep 5, Eff.saveFailed, Eff.sleep 5, Eff.saveFailed,
        Eff.sleep 5, Eff.saveFailed, Eff.sleep 5, Eff.saveFailed, Eff.saveFailed] :=
  tooLarge_aborts_upload fileBig "F" "A1" "/root/F" rsPlain recF
    (by decide) (by decide) (by decide) (by decide)

/-! ## C5: unsupported extensions in the main loop -/

/-- C5 counterexample: `.png` is not in the supported set, and the main
loop's per-file dispatch does *nothing* for `scan.png`: the run state is
returned unchanged — no upload, no commit, no `UnsupportedFormat` (or any)
failure recorded, and the file is not in `uploaded_files`. -/
theorem unsupported_ext_cex :
    dispatchFile false false "F" "A1" "/root/F" [] filePng rsPlain = (rsPlain, false) ∧
    filesOfFail rsPlain.fails FailKind.UnsupportedFormat "F" = [] ∧
    "scan.png" ∉ filesOfState rsPlain.st "F" ∧
    Eff.upload "scan.png" ∉ rsPlain.trace := by
  refine ⟨by decide, by decide, by decide, by decide⟩

/-- C5 (amended): a file whose lowercased extension is not in the
supported capture-metadata set is skipped entirely by the main loop — the
dispatch returns the run state untouched: no metadata editing, no upload,
no commit, no failure classification of any kind (in particular no
`UnsupportedFormat` entry), and no addition to `uploaded_files`. -/
theorem unsupported_ext_skipped (dryRun updateFromFolder : Bool)
    (folderName albumId folderPath : String) (stFiles : List String)
    (f : FileInfo) (rs : RS)
    (h : strLower (suffixOf f.name) ∉ SUPPORTED_EXIF_EXT) :
    dispatchFile dryRun updateFromFolder folderName albumId folderPath stFiles f rs
      = (rs, false) := by
  simp [dispatchFile, h]

/-- C5 witness: the amended theorem applied to `scan.png`. -/
theorem unsupported_ext_skipped_witness :
    strLower (suffixOf filePng.name) ∉ SUPPORTED_EXIF_EXT ∧
    dispatchFile true true "F" "A1" "/root/F" [] filePng rsPlain = (rsPlain, false) :=
  ⟨by decide,
   unsupported_ext_skipped true true "F" "A1" "/root/F" [] filePng rsPlain (by decide)⟩

/-! ## C6: stale-album (404) recovery -/

/-- C6 counterexample: first commit 404s (missing album), a replacement
`A2` is created and the commit retried against it; that retried commit
fails (500), so the retry wrapper replays the whole call with its original
argument — the stale id `A1` — and that replayed commit is the one that
succeeds.  The old album id *is* reused after the recovery. -/
theorem stale_album_old_id_reused :
    (addToAlbum "A1" "tok" "F" rsStale).2 = Except.ok () ∧
    (addToAlbum "A1" "tok" "F" rsStale).1.trace =
      [Eff.commit "A1", Eff.saveState, Eff.createAlbum "F", Eff.saveState,
       Eff.commit "A2", Eff.sleep 5, Eff.commit "A1"] := by
  refine ⟨rfl, by decide⟩

/-- C6 (amended): within the attempt that receives the 404, recovery works
as claimed: the stale record is purged and the purge persisted, exactly one
replacement creation happens, SyncState maps the folder to the new id
(with `uploaded_files` reset to `[]` and path `"."`), the new state is
persisted, and the commit is re-issued against the new id — the trace
shows the old id is not reused inside this attempt.  (If that re-issued
commit fails, the outer retry wrapper replays the call with the old id, as
the counterexample shows.) -/
theorem stale_album_recovery_single_attempt (albumId description folderName newId : String)
    (rs : RS) (ar : AlbumRecord) (rest : List CResp) (crest : List (Option String))
    (h1 : lookupSt rs.st folderName = some ar)
    (h2 : rs.commits = CResp.r404missing :: CResp.ok :: rest)
    (h3 : rs.creates = some newId :: crest) :
    (addToAlbum albumId description folderName rs).2 = Except.ok () ∧
    (addToAlbum albumId description folderName rs).1.trace =
      rs.trace ++ [Eff.commit albumId, Eff.saveState,
        Eff.createAlbum (folderName.take 100), Eff.saveState, Eff.commit newId] ∧
    lookupSt (addToAlbum albumId description folderName rs).1.st folderName =
      some ⟨newId, ".", []⟩ ∧
    (addToAlbum albumId description folderName rs).1.diskSt =
      (addToAlbum albumId description folderName rs).1.st ∧
    (addToAlbum albumId description folderName rs).1.fails = rs.fails := by
  have h1a : lookupA rs.st folderName = some ar := h1
  simp [addToAlbum, tenacity5, tenacityGo, addToAlbumBody, createAlbum, createAlbumBody,
        popCommit, popCreate, pushEff, doSaveState, h1a, h2, h3, lookupSt, delSt, setSt,
        lookupA_setA_self, List.append_assoc]

/-- C6 witness: the amended theorem at a concrete 404-then-success run. -/
theorem stale_album_recovery_witness :
    (addToAlbum "A1" "tok" "F" rsStaleOk).2 = Except.ok () ∧
    (addToAlbum "A1" "tok" "F" rsStaleOk).1.trace =
      rsStaleOk.trace ++ [Eff.commit "A1", Eff.saveState,
        Eff.createAlbum ("F".take 100), Eff.saveState, Eff.commit "A2"] ∧
    lookupSt (addToAlbum "A1" "tok" "F" rsStaleOk).1.st "F" = some ⟨"A2", ".", []⟩ ∧
    (addToAlbum "A1" "tok" "F" rsStaleOk).1.diskSt = (addToAlbum "A1" "tok" "F" rsStaleOk).1.st ∧
    (addToAlbum "A1" "tok" "F" rsStaleOk).1.fails = rsStaleOk.fails :=
  stale_album_recovery_single_attempt "A1" "tok" "F" "A2" rsStaleOk ⟨"A1", "/p", []⟩ [] []
    (by decide) (by decide) (by decide)

/-! ## C7: rate-limit (429) handling -/

/-- C7 counterexample: five consecutive 429s.  Each 429 is followed by the
65s pause, but the fifth exhausts the five attempts: it is followed by *no*
retried commit call, and the file is classified `AddToAlbumError` — so a
429-receiving commit call can end in a failure classification. -/
theorem rate_limit_exhaustion_classifies :
    (processFile false false fileA "F" "A1" "/root/F" rsRate).2 = PFRes.ret (some false) ∧
    "a.jpg" ∈ filesOfFail (processFile false false fileA "F" "A1" "/root/F" rsRate).1.fails
      FailKind.AddToAlbumError "F" ∧
    (processFile false false fileA "F" "A1" "/root/F" rsRate).1.trace =
      [Eff.upload "a.jpg", Eff.saveState,
       Eff.commit "A1", Eff.sleep 65, Eff.sleep 5,
       Eff.commit "A1", Eff.sleep 65, Eff.sleep 5,
       Eff.commit "A1", Eff.sleep 65, Eff.sleep 5,
       Eff.commit "A1", Eff.sleep 65, Eff.sleep 5,
       Eff.commit "A1", Eff.sleep 65, Eff.saveFailed] := by
  refine ⟨by decide, by decide, by decide⟩

/-- C7 (amended): a commit call whose first response is a 429 followed by a
success performs exactly one extended 65s pause, then (after the retry
wrapper's fixed 5s wait) exactly one retried commit call, and mutates
nothing: no failure classification, no state change.  A 429 on the *last*
remaining attempt instead ends in an `AddToAlbumError` classification, as
the counterexample shows. -/
theorem single_429_single_retry (albumId description folderName : String) (rs : RS)
    (rest : List CResp) (h : rs.commits = CResp.r429 :: CResp.ok :: rest) :
    addToAlbum albumId description folderName rs =
      ({ rs with
          commits := rest,
          trace := rs.trace ++
            [Eff.commit albumId, Eff.sleep 65, Eff.sleep 5, Eff.commit albumId] },
       Except.ok ()) := by
  simp [addToAlbum, tenacity5, tenacityGo, addToAlbumBody, popCommit, pushEff, h,
        List.append_assoc]

/-- C7 witness: the amended theorem at a concrete 429-then-success run. -/
theorem single_429_single_retry_witness :
    addToAlbum "A1" "tok" "F" rsRateOk =
      ({ rsRateOk with
          commits := [],
          trace := rsRateOk.trace ++
            [Eff.commit "A1", Eff.sleep 65, Eff.sleep 5, Eff.commit "A1"] },
       Except.ok ()) :=
  single_429_single_retry "A1" "tok" "F" rsRateOk [] (by decide)

/-! ## C9: persistence discipline of the FailureRegistry -/

/-- C9 counterexample: in the retry-failed pass, after the first parked
file is successfully retried its removal exists only in memory — the
durable registry still lists it — and the step performed no registry save
at all (`saveFailed` absent from its trace). -/
theorem retry_removal_not_persisted_immediately :
    "a.jpg" ∉ filesOfFail
      (retryFileStep FailKind.UploadError "F" "A1" "/root/F" envStd false false "a.jpg" rsRetry).1.fails
      FailKind.UploadError "F" ∧
    "a.jpg" ∈ filesOfFail
      (retryFileStep FailKind.UploadError "F" "A1" "/root/F" envStd false false "a.jpg" rsRetry).1.diskFails
      FailKind.UploadError "F" ∧
    Eff.saveFailed ∉
      (retryFileStep FailKind.UploadError "F" "A1" "/root/F" envStd false false "a.jpg" rsRetry).1.trace := by
  refine ⟨by decide, by decide, by decide⟩

/-- C9 (amended): `add_failure` is an idempotent insert and persists
immediately after every mutation (its result always has the durable
registry equal to the in-memory one); but the *removals* of the
retry-failed pass are batched: over a whole pass (here: two parked files,
both retried successfully) the durable registry is never updated until the
single save that runs after the pass, which then flushes everything. -/
theorem failureRegistry_write_through :
    (∀ rs k fo fi p, (addFailure rs k fo fi p).diskFails = (addFailure rs k fo fi p).fails) ∧
    (∀ fl k fo fi p,
      addFailureData (addFailureData fl k fo fi p) k fo fi p = addFailureData fl k fo fi p) ∧
    (retryFolder FailKind.UploadError "F" "A1" "/root/F" envStd false false
        ["a.jpg", "b.jpg"] rsRetry).1.diskFails = rsRetry.diskFails ∧
    (doSaveFailed (retryFolder FailKind.UploadError "F" "A1" "/root/F" envStd false false
        ["a.jpg", "b.jpg"] rsRetry).1).diskFails =
      (doSaveFailed (retryFolder FailKind.UploadError "F" "A1" "/root/F" envStd false false
        ["a.jpg", "b.jpg"] rsRetry).1).fails := by
  refine ⟨fun rs k fo fi p => rfl, fun fl k fo fi p => addFailureData_idem fl k fo fi p,
    by decide, by decide⟩

/-! ## C10: retry mode drops unsupported-extension failures -/

/-- C10: in retry-failed mode a parked file whose lowercased extension is
unsupported is removed from its registry entry with *no* effect at all —
no upload or commit attempt (trace unchanged), no addition to
`uploaded_files` (SyncState unchanged), and no immediate persistence of the
removal (the durable registry unchanged; the pass-final save later makes
the disappearance durable even though the file was never committed). -/
theorem retry_unsupported_removed_without_upload (etype : FailKind)
    (folderName albumId folderPath : String) (env : String → FileEnv)
    (dryRun updateFromFolder : Bool) (fileName : String) (rs : RS)
    (hext : strLower (suffixOf fileName) ∉ SUPPORTED_EXIF_EXT)
    (hnd : keyNodup (rs.fails.get etype)) :
    (retryFileStep etype folderName albumId folderPath env dryRun updateFromFolder fileName rs).1.st
      = rs.st ∧
    (retryFileStep etype folderName albumId folderPath env dryRun updateFromFolder fileName rs).1.trace
      = rs.trace ∧
    (retryFileStep etype folderName albumId folderPath env dryRun updateFromFolder fileName rs).1.diskFails
      = rs.diskFails ∧
    filesOfFail
      (retryFileStep etype folderName albumId folderPath env dryRun updateFromFolder fileName rs).1.fails
      etype folderName
      = (filesOfFail rs.fails etype folderName).erase fileName ∧
    (retryFileStep etype folderName albumId folderPath env dryRun updateFromFolder fileName rs).2
      = false := by
  simp [retryFileStep, hext, filesOfFail_remove _ _ _ _ hnd]

/-- C10 witness: `x.png` parked under `UploadError` is dropped from the
registry entry without any upload/commit and without entering
`uploaded_files`. -/
theorem retry_unsupported_removed_witness :
    (retryFileStep FailKind.UploadError "F" "A1" "/root/F" envStd false false "x.png" rsRetryPng).1.st
      = rsRetryPng.st ∧
    (retryFileStep FailKind.UploadError "F" "A1" "/root/F" envStd false false "x.png" rsRetryPng).1.trace
      = rsRetryPng.trace ∧
    (retryFileStep FailKind.UploadError "F" "A1" "/root/F" envStd false false "x.png" rsRetryPng).1.diskFails
      = rsRetryPng.diskFails ∧
    filesOfFail
      (retryFileStep FailKind.UploadError "F" "A1" "/root/F" envStd false false "x.png" rsRetryPng).1.fails
      FailKind.UploadError "F"
      = (filesOfFail rsRetryPng.fails FailKind.UploadError "F").erase "x.png" ∧
    (retryFileStep FailKind.UploadError "F" "A1" "/root/F" envStd false false "x.png" rsRetryPng).2
      = false :=
  retry_unsupported_removed_without_upload FailKind.UploadError "F" "A1" "/root/F" envStd
    false false "x.png" rsRetryPng (by decide) (by decide)

end GPhotosSync
